import Mathlib

/-!
Verification of the commerce add-on repository: the order-intake serverless
handler (`supabase/functions/process-store-order/index.ts`), the admin
dashboard mutations and statistics (`src/components/dashboard/StoreManager.tsx`),
and the `store_orders` / `store_order_items` schema
(`supabase/migrations/20250709130918_dark_gate.sql`).

The TypeScript is shallowly embedded: the handler becomes a pure function of
the request, the environment, an oracle for the nondeterministic outcomes
(database errors, assigned row id, email provider outcome, `Date.now()`,
`Math.random()`), and the database state.  Monetary amounts (`decimal(10,2)`
columns, JS numbers) are modelled as rationals.  JS string truthiness
(`!orderData.customer_name`) is modelled on `Option String`: absent (`none`)
and the empty string are falsy.
-/

namespace StoreVerify

/-- JSON values appearing in the handler's response bodies. -/
inductive JVal where
  | jBool (b : Bool)
  | jStr (s : String)
deriving DecidableEq, Repr

/-- An HTTP response: status code and an optional JSON object body
(`none` models the `null` body of the CORS preflight response). -/
structure HttpResponse where
  status : Nat
  body : Option (List (String × JVal))
deriving DecidableEq, Repr

/-- Keys of the response's JSON object body (empty for a `null` body). -/
def bodyKeys (r : HttpResponse) : List String :=
  (r.body.getD []).map Prod.fst

/-- Value of field `k` in the response's JSON object body. -/
def bodyField (r : HttpResponse) (k : String) : Option JVal :=
  (r.body.getD []).lookup k

/-- Whether the response body has an `error` field. -/
def hasErrorField (r : HttpResponse) : Bool :=
  (bodyKeys r).contains "error"

/-- `interface OrderItem` of the handler (index.ts lines 9–16). -/
structure OrderItem where
  addon_id : String
  addon_name : String
  addon_description : String
  quantity : Nat
  unit_price : ℚ
  total_price : ℚ
deriving DecidableEq, Repr

/-- `interface OrderData` of the handler (index.ts lines 18–30).
`customer_name`, `customer_email` and `items` are `Option`s because the
handler's validation guards against their absence in the parsed JSON;
`customer_phone` and `billing_address` are optional in the interface itself. -/
structure OrderData where
  customer_name : Option String
  customer_email : Option String
  customer_phone : Option String
  institution_name : String
  billing_address : Option String
  payment_method : String
  items : Option (List OrderItem)
  subtotal : ℚ
  tax_amount : ℚ
  discount_amount : ℚ
  total_amount : ℚ
deriving DecidableEq, Repr

/-- JS truthiness of an optional string: `undefined` and `""` are falsy. -/
def truthyStr : Option String → Bool
  | none => false
  | some s => s ≠ ""

/-- `!orderData.items || orderData.items.length === 0`: a missing items field
is falsy, an array is always truthy and is then checked for emptiness. -/
def itemsMissingOrEmpty : Option (List OrderItem) → Bool
  | none => true
  | some l => l.isEmpty

/-- The validation condition of index.ts line 42:
`!orderData.customer_name || !orderData.customer_email || !orderData.items ||
orderData.items.length === 0`. -/
def missingRequired (d : OrderData) : Bool :=
  !truthyStr d.customer_name || !truthyStr d.customer_email ||
    itemsMissingOrEmpty d.items

/-- A row of `store_orders` as inserted by the handler (index.ts lines 61–79),
plus the `id` assigned by the database. -/
structure OrderRow where
  id : String
  order_number : String
  customer_name : String
  customer_email : String
  customer_phone : Option String
  institution_name : String
  billing_address : Option String
  payment_method : String
  subtotal : ℚ
  tax_amount : ℚ
  discount_amount : ℚ
  total_amount : ℚ
  order_status : String
  payment_status : String
deriving DecidableEq, Repr

/-- A row of `store_order_items` as inserted by the handler (lines 93–101). -/
structure OrderItemRow where
  order_id : String
  addon_id : String
  addon_name : String
  addon_description : String
  quantity : Nat
  unit_price : ℚ
  total_price : ℚ
deriving DecidableEq, Repr

/-- The database state the handler touches: the two tables and a log of the
`increment_download_count` RPC calls (one entry per purchased item). -/
structure Db where
  store_orders : List OrderRow
  store_order_items : List OrderItemRow
  download_increments : List String
deriving DecidableEq, Repr

/-- Outcome of the outbound MailerSend call: `response.ok`, a non-ok
response, or a thrown exception (caught by the handler's try/catch). -/
inductive EmailOutcome where
  | ok
  | notOk
  | throws
deriving DecidableEq, BEq, Repr

/-- The function's environment: `Deno.env.get('MAILERSEND_API_KEY')`. -/
structure Env where
  mailersendApiKey : Option String
deriving DecidableEq, Repr

/-- Oracle for the nondeterministic outcomes of one invocation:
`Date.now()`, the base-36 fractional digits `Math.random().toString(36)`
prints (possibly fewer than five, e.g. `(0.5).toString(36) = "0.i"`; never
with trailing zero digits), whether each insert errors, the uuid the
database assigns to the order row, and the email call's outcome. -/
structure World where
  nowMs : Nat
  randDigits : List (Fin 36)
  orderInsertError : Bool
  orderId : String
  itemsInsertError : Bool
  emailOutcome : EmailOutcome
deriving DecidableEq, Repr

/-- The base-36 digit characters after `.toUpperCase()`: `0`–`9`, `A`–`Z`. -/
def base36UpperDigit (d : Fin 36) : Char :=
  if d.val < 10 then Char.ofNat (48 + d.val) else Char.ofNat (65 + (d.val - 10))

/-- `Math.random().toString(36).substr(2, 5).toUpperCase()`: the first five
(or fewer) fractional base-36 digits, uppercased. -/
def randSuffix (ds : List (Fin 36)) : String :=
  String.mk ((ds.take 5).map base36UpperDigit)

/-- index.ts line 58: `` `ORD-${Date.now()}-${Math.random().toString(36).substr(2, 5).toUpperCase()}` ``. -/
def orderNumberOf (nowMs : Nat) (ds : List (Fin 36)) : String :=
  "ORD-" ++ toString nowMs ++ "-" ++ randSuffix ds

/-- The `store_orders` insert payload (index.ts lines 63–77): statuses are
the literals `'pending'`, all other fields copied from the request. -/
def mkOrderRow (w : World) (orderNumber : String) (d : OrderData) : OrderRow :=
  { id := w.orderId
    order_number := orderNumber
    customer_name := d.customer_name.getD ""
    customer_email := d.customer_email.getD ""
    customer_phone := d.customer_phone
    institution_name := d.institution_name
    billing_address := d.billing_address
    payment_method := d.payment_method
    subtotal := d.subtotal
    tax_amount := d.tax_amount
    discount_amount := d.discount_amount
    total_amount := d.total_amount
    order_status := "pending"
    payment_status := "pending" }

/-- The `store_order_items` insert payload (index.ts lines 93–101). -/
def mkOrderItemRows (orderId : String) (items : List OrderItem) : List OrderItemRow :=
  items.map fun it =>
    { order_id := orderId
      addon_id := it.addon_id
      addon_name := it.addon_name
      addon_description := it.addon_description
      quantity := it.quantity
      unit_price := it.unit_price
      total_price := it.total_price }

/-- A request to the handler: a CORS preflight, or a POST whose JSON parse
either succeeds (`some` payload) or throws (`none`, landing in the outer
catch). -/
inductive StoreRequest where
  | options
  | post (parsed : Option OrderData)
deriving DecidableEq, Repr

/-- Result of one invocation: the HTTP response, the database state
afterwards, and whether the MailerSend fetch was issued. -/
structure HandlerResult where
  response : HttpResponse
  db : Db
  emailAttempted : Bool
deriving DecidableEq, Repr

/-- An error response body `{ error: msg }` with the given status. -/
def errorResponse (status : Nat) (msg : String) : HttpResponse :=
  { status := status, body := some [("error", JVal.jStr msg)] }

/-- The outer catch's body `{ error: 'Internal server error', details: ... }`. -/
def internalErrorResponse (details : String) : HttpResponse :=
  { status := 500
    body := some [("error", JVal.jStr "Internal server error"),
                  ("details", JVal.jStr details)] }

/-- The 200 body of index.ts lines 216–222. -/
def successResponse (orderId orderNumber : String) (emailSent : Bool) : HttpResponse :=
  { status := 200
    body := some [("success", JVal.jBool true),
                  ("order_id", JVal.jStr orderId),
                  ("order_number", JVal.jStr orderNumber),
                  ("message", JVal.jStr "Order created successfully"),
                  ("email_sent", JVal.jBool emailSent)] }

/-- The `Deno.serve` handler of process-store-order/index.ts as a pure
function of request, environment, outcome oracle and database state. -/
def processStoreOrder (env : Env) (w : World) (req : StoreRequest) (db : Db) :
    HandlerResult :=
  match req with
  | .options =>
      { response := { status := 200, body := none }, db := db, emailAttempted := false }
  | .post none =>
      { response := internalErrorResponse "request JSON parse failure"
        db := db, emailAttempted := false }
  | .post (some orderData) =>
      if missingRequired orderData then
        { response := errorResponse 400 "Missing required fields"
          db := db, emailAttempted := false }
      else
        let orderNumber := orderNumberOf w.nowMs w.randDigits
        if w.orderInsertError then
          { response := errorResponse 500 "Failed to create order"
            db := db, emailAttempted := false }
        else
          let order := mkOrderRow w orderNumber orderData
          let db1 : Db := { db with store_orders := db.store_orders ++ [order] }
          let orderItems := mkOrderItemRows order.id (orderData.items.getD [])
          if w.itemsInsertError then
            -- Rollback order creation: delete().eq('id', order.id)
            let db2 : Db :=
              { db1 with store_orders := db1.store_orders.filter (fun r => r.id != order.id) }
            { response := errorResponse 500 "Failed to create order items"
              db := db2, emailAttempted := false }
          else
            let db2 : Db :=
              { db1 with
                store_order_items := db1.store_order_items ++ orderItems
                download_increments :=
                  db1.download_increments ++ (orderData.items.getD []).map (·.addon_id) }
            let attempted := truthyStr env.mailersendApiKey
            let emailSent := attempted && (w.emailOutcome == .ok)
            { response := successResponse order.id orderNumber emailSent
              db := db2, emailAttempted := attempted }

/-- An uppercase alphanumeric character: a decimal digit or `A`–`Z`. -/
def isUpperAlnum (c : Char) : Bool :=
  c.isDigit || c.isUpper

/-- Split a character list on `-`, keeping (possibly empty) fields. -/
def splitOnDash : List Char → List (List Char)
  | [] => [[]]
  | c :: rest =>
      if c == '-' then [] :: splitOnDash rest
      else
        match splitOnDash rest with
        | [] => [[c]]
        | h :: t => (c :: h) :: t

/-- Formalised from the spec's words, for comparison with `orderNumberOf`:
the pattern `ORD-<digits>-<5 uppercase alphanumerics>` — the literal `ORD`,
a hyphen, a nonempty run of decimal digits, a hyphen, and exactly five
uppercase alphanumeric characters. -/
def matchesOrderNumberPattern (s : String) : Bool :=
  match splitOnDash s.toList with
  | [pre, ts, suf] =>
      pre == ['O', 'R', 'D'] && !ts.isEmpty && ts.all Char.isDigit &&
        suf.length == 5 && suf.all isUpperAlnum
  | _ => false

/-! ## Admin dashboard (StoreManager.tsx) -/

/-- The dashboard's category join `category:store_categories(name, slug)`. -/
structure CategoryRef where
  name : String
  slug : String
deriving DecidableEq, Repr

/-- `interface StoreAddon` (StoreManager.tsx lines 11–32); also used for the
rows of `store_addons`, restricted to the columns the dashboard reads. -/
structure StoreAddon where
  id : String
  name : String
  slug : String
  description : String
  short_description : String
  price : ℚ
  original_price : Option ℚ
  currency : String
  features : List String
  is_published : Bool
  is_featured : Bool
  is_popular : Bool
  download_count : Nat
  rating : ℚ
  review_count : Nat
  category : CategoryRef
  created_at : String
deriving DecidableEq, Repr

/-- One joined item of `interface StoreOrder` (StoreManager.tsx lines 45–50). -/
structure DashOrderItem where
  addon_name : String
  quantity : Nat
  unit_price : ℚ
  total_price : ℚ
deriving DecidableEq, Repr

/-- `interface StoreOrder` (StoreManager.tsx lines 34–51). -/
structure DashOrder where
  id : String
  order_number : String
  customer_name : String
  customer_email : String
  institution_name : String
  order_status : String
  payment_status : String
  total_amount : ℚ
  currency : String
  created_at : String
  items : List DashOrderItem
deriving DecidableEq, Repr

/-- `interface StoreStats` (StoreManager.tsx lines 53–59). -/
structure StoreStats where
  totalAddons : Nat
  publishedAddons : Nat
  totalOrders : Nat
  totalRevenue : ℚ
  pendingOrders : Nat
deriving DecidableEq, Repr

/-- The stats computation of `fetchStoreData` (StoreManager.tsx lines 114–127):
counts, published filter, revenue reduce, pending filter over the fetched
data. -/
def computeStats (addonsData : List StoreAddon) (ordersData : List DashOrder) :
    StoreStats :=
  { totalAddons := addonsData.length
    publishedAddons := (addonsData.filter (·.is_published)).length
    totalOrders := ordersData.length
    totalRevenue := ordersData.foldl (fun sum order => sum + order.total_amount) 0
    pendingOrders := (ordersData.filter (fun order => order.order_status == "pending")).length }

/-- `handleDeleteAddon` (StoreManager.tsx lines 136–151) acting on the
`store_addons` table and the local `addons` state: aborted unless the
confirm dialog was accepted; on a database error the catch leaves the local
state untouched; on success the deleted id is filtered out of both. -/
def handleDeleteAddon (dbAddons addons : List StoreAddon) (id : String)
    (confirmed dbError : Bool) : List StoreAddon × List StoreAddon :=
  if !confirmed then (dbAddons, addons)
  else if dbError then (dbAddons, addons)
  else (dbAddons.filter (fun a => a.id != id),
        addons.filter (fun addon => addon.id != id))

/-- `handleTogglePublish` (StoreManager.tsx lines 153–168): the update sets
`is_published` to `!currentStatus` on the rows with the given id; on success
the local state is mapped the same way, on error it is left untouched. -/
def handleTogglePublish (dbAddons addons : List StoreAddon) (id : String)
    (currentStatus dbError : Bool) : List StoreAddon × List StoreAddon :=
  if dbError then (dbAddons, addons)
  else (dbAddons.map (fun a =>
          if a.id == id then { a with is_published := !currentStatus } else a),
        addons.map (fun addon =>
          if addon.id == id then { addon with is_published := !currentStatus } else addon))

/-- `handleUpdateOrderStatus` (StoreManager.tsx lines 170–185): the update
writes `order_status := status` on the rows with the given id, with no check
against the prior status; on success the local state is mapped the same way,
on error it is left untouched. -/
def handleUpdateOrderStatus (dbOrders : List OrderRow) (orders : List DashOrder)
    (orderId status : String) (dbError : Bool) : List OrderRow × List DashOrder :=
  if dbError then (dbOrders, orders)
  else (dbOrders.map (fun r =>
          if r.id == orderId then { r with order_status := status } else r),
        orders.map (fun order =>
          if order.id == orderId then { order with order_status := status } else order))

/-- The four options of the order-status dropdown (StoreManager.tsx
lines 516–519). -/
def dropdownStatusOptions : List String :=
  ["pending", "processing", "completed", "cancelled"]

/-! ## Concrete fixtures for witnesses and counterexamples -/

/-- A concrete order item. -/
def sampleItem : OrderItem :=
  { addon_id := "addon-1"
    addon_name := "QR Attendance"
    addon_description := "Scan based attendance"
    quantity := 1
    unit_price := 2999
    total_price := 2999 }

/-- A concrete valid payload (two items, as in the spec's test property). -/
def sampleOrderData : OrderData :=
  { customer_name := some "Jane Doe"
    customer_email := some "jane@example.com"
    customer_phone := none
    institution_name := "Acme School"
    billing_address := none
    payment_method := "mpesa"
    items := some [sampleItem, { sampleItem with addon_id := "addon-2", addon_name := "Library Plus" }]
    subtotal := 5998
    tax_amount := 0
    discount_amount := 0
    total_amount := 5998 }

/-- A payload with a missing customer name. -/
def invalidOrderData : OrderData :=
  { sampleOrderData with customer_name := none }

/-- The empty database. -/
def emptyDb : Db :=
  { store_orders := [], store_order_items := [], download_increments := [] }

/-- Environment with a configured MailerSend key. -/
def sampleEnv : Env := { mailersendApiKey := some "ms-key" }

/-- Oracle for a fully successful invocation; the random value has five
base-36 fractional digits 10,11,12,13,14, so the suffix is `ABCDE`. -/
def sampleWorld : World :=
  { nowMs := 1234
    randDigits := [10, 11, 12, 13, 14]
    orderInsertError := false
    orderId := "uuid-1"
    itemsInsertError := false
    emailOutcome := .ok }

/-- Oracle where the order-items insert fails. -/
def itemsFailWorld : World := { sampleWorld with itemsInsertError := true }

/-- Oracle where `Math.random()` returned exactly `0.5`: its base-36
representation is `0.i`, a single fractional digit (18). -/
def halfRandWorld : World := { sampleWorld with randDigits := [18] }

/-! ## Theorems -/

/-- Helper: the rollback filter removes exactly the freshly inserted row. -/
theorem filter_rollback (l : List OrderRow) (order : OrderRow)
    (hfresh : ∀ r ∈ l, r.id ≠ order.id) :
    (l ++ [order]).filter (fun r => r.id != order.id) = l := by
  rw [List.filter_append]
  have h1 : l.filter (fun r => r.id != order.id) = l :=
    List.filter_eq_self.mpr fun r hr => bne_iff_ne.mpr (hfresh r hr)
  have h2 : [order].filter (fun r => r.id != order.id) = [] := by
    simp [List.filter]
  rw [h1, h2, List.append_nil]

/-- The handler's state and response on the items-insert-failure branch. -/
def rollbackResult (db : Db) (order : OrderRow) : HandlerResult where
  response := errorResponse 500 "Failed to create order items"
  db := { db with
            store_orders := (db.store_orders ++ [order]).filter (fun r => r.id != order.id) }
  emailAttempted := false

/-- C1: if the order insert succeeds but the order-items insert fails, the
handler deletes the order row it just created — provided the assigned id was
fresh, the `store_orders` table (indeed the whole database state) is exactly
what it was before the request — and responds with status 500 and an error
body. -/
theorem items_failure_rolls_back_order (env : Env) (w : World) (db : Db) (d : OrderData)
    (hv : missingRequired d = false)
    (h1 : w.orderInsertError = false)
    (h2 : w.itemsInsertError = true)
    (hfresh : ∀ r ∈ db.store_orders, r.id ≠ w.orderId) :
    (processStoreOrder env w (.post (some d)) db).response.status = 500 ∧
    hasErrorField (processStoreOrder env w (.post (some d)) db).response = true ∧
    (∀ r ∈ (processStoreOrder env w (.post (some d)) db).db.store_orders, r.id ≠ w.orderId) ∧
    (processStoreOrder env w (.post (some d)) db).db = db := by
  have hrun : processStoreOrder env w (.post (some d)) db =
      rollbackResult db (mkOrderRow w (orderNumberOf w.nowMs w.randDigits) d) := by
    simp [processStoreOrder, hv, h1, h2, rollbackResult]
  have hdb : (processStoreOrder env w (.post (some d)) db).db = db := by
    rw [hrun]
    show Db.mk _ _ _ = db
    rw [filter_rollback db.store_orders
      (mkOrderRow w (orderNumberOf w.nowMs w.randDigits) d) hfresh]
  refine ⟨by rw [hrun]; rfl, by rw [hrun]; rfl, ?_, hdb⟩
  rw [hdb]
  exact hfresh

/-- Witness for C1 at a concrete invocation. -/
theorem items_failure_rolls_back_order_witness :
    (processStoreOrder sampleEnv itemsFailWorld (.post (some sampleOrderData)) emptyDb).response.status = 500 ∧
    hasErrorField (processStoreOrder sampleEnv itemsFailWorld (.post (some sampleOrderData)) emptyDb).response = true ∧
    (∀ r ∈ (processStoreOrder sampleEnv itemsFailWorld (.post (some sampleOrderData)) emptyDb).db.store_orders,
        r.id ≠ itemsFailWorld.orderId) ∧
    (processStoreOrder sampleEnv itemsFailWorld (.post (some sampleOrderData)) emptyDb).db = emptyDb :=
  items_failure_rolls_back_order sampleEnv itemsFailWorld emptyDb sampleOrderData
    (by decide) rfl rfl (by simp [emptyDb])

/-- C3: a payload with a missing customer name, missing customer email,
missing items field, or an empty items list gets a 400 response with an
error body, and the database state is untouched. -/
theorem missing_fields_rejected (env : Env) (w : World) (db : Db) (d : OrderData)
    (h : d.customer_name = none ∨ d.customer_email = none ∨
         d.items = none ∨ d.items = some []) :
    (processStoreOrder env w (.post (some d)) db).response.status = 400 ∧
    (processStoreOrder env w (.post (some d)) db).response.body =
      some [("error", JVal.jStr "Missing required fields")] ∧
    (processStoreOrder env w (.post (some d)) db).db = db := by
  have hm : missingRequired d = true := by
    rcases h with h | h | h | h <;>
      simp [missingRequired, truthyStr, itemsMissingOrEmpty, h]
  simp [processStoreOrder, hm, errorResponse]

/-- Witness for C3 at a concrete invocation. -/
theorem missing_fields_rejected_witness :
    (processStoreOrder sampleEnv sampleWorld (.post (some invalidOrderData)) emptyDb).response.status = 400 ∧
    (processStoreOrder sampleEnv sampleWorld (.post (some invalidOrderData)) emptyDb).response.body =
      some [("error", JVal.jStr "Missing required fields")] ∧
    (processStoreOrder sampleEnv sampleWorld (.post (some invalidOrderData)) emptyDb).db = emptyDb :=
  missing_fields_rejected sampleEnv sampleWorld emptyDb invalidOrderData (Or.inl rfl)

/-- Every character the suffix generator can emit is an uppercase
alphanumeric. -/
theorem base36UpperDigit_isUpperAlnum :
    ∀ d : Fin 36, isUpperAlnum (base36UpperDigit d) = true := by decide

/-- The suffix has `min 5 (number of fractional digits)` characters. -/
theorem randSuffix_length (ds : List (Fin 36)) :
    (randSuffix ds).length = min 5 ds.length := by
  show ((ds.take 5).map base36UpperDigit).length = min 5 ds.length
  rw [List.length_map, List.length_take]

/-- C2 (amended): on a fully successful submission the 200 response's
`order_number` is the literal prefix `ORD-`, the decimal digits of the
current timestamp, a hyphen, and an uppercase-alphanumeric random suffix of
at most five characters — exactly five whenever the random value's base-36
expansion has at least five fractional digits. -/
theorem order_number_shape (env : Env) (w : World) (db : Db) (d : OrderData)
    (hv : missingRequired d = false)
    (h1 : w.orderInsertError = false)
    (h2 : w.itemsInsertError = false) :
    (processStoreOrder env w (.post (some d)) db).response.status = 200 ∧
    bodyField (processStoreOrder env w (.post (some d)) db).response "order_number"
      = some (JVal.jStr ("ORD-" ++ toString w.nowMs ++ "-" ++ randSuffix w.randDigits)) ∧
    (randSuffix w.randDigits).length ≤ 5 ∧
    (∀ c ∈ (randSuffix w.randDigits).toList, isUpperAlnum c = true) ∧
    (5 ≤ w.randDigits.length → (randSuffix w.randDigits).length = 5) := by
  have hresp : (processStoreOrder env w (.post (some d)) db).response =
      successResponse w.orderId (orderNumberOf w.nowMs w.randDigits)
        (truthyStr env.mailersendApiKey && (w.emailOutcome == .ok)) := by
    simp [processStoreOrder, hv, h1, h2, mkOrderRow]
  refine ⟨by rw [hresp]; rfl, by rw [hresp]; rfl, ?_, ?_, ?_⟩
  · rw [randSuffix_length]; exact min_le_left _ _
  · intro c hc
    have hc' : c ∈ (w.randDigits.take 5).map base36UpperDigit := hc
    obtain ⟨d36, _, rfl⟩ := List.mem_map.mp hc'
    exact base36UpperDigit_isUpperAlnum d36
  · intro h5
    rw [randSuffix_length]
    exact Nat.min_eq_left h5

/-- C2 counterexample to the claim as stated: when `Math.random()` returns
exactly `0.5` (base-36 representation `0.i`), the successful response's
`order_number` is `ORD-1234-I`, whose suffix has one character rather than
five, so it does not match `ORD-<digits>-<5 uppercase alphanumerics>`. -/
theorem order_number_pattern_counterexample :
    (processStoreOrder sampleEnv halfRandWorld (.post (some sampleOrderData)) emptyDb).response.status = 200 ∧
    bodyField (processStoreOrder sampleEnv halfRandWorld (.post (some sampleOrderData)) emptyDb).response "order_number"
      = some (JVal.jStr "ORD-1234-I") ∧
    matchesOrderNumberPattern "ORD-1234-I" = false := by decide

/-- Witness for the amended C2 at a concrete invocation (five random
digits, so the suffix length is exactly five). -/
theorem order_number_shape_witness :
    (processStoreOrder sampleEnv sampleWorld (.post (some sampleOrderData)) emptyDb).response.status = 200 ∧
    bodyField (processStoreOrder sampleEnv sampleWorld (.post (some sampleOrderData)) emptyDb).response "order_number"
      = some (JVal.jStr ("ORD-" ++ toString sampleWorld.nowMs ++ "-" ++ randSuffix sampleWorld.randDigits)) ∧
    (randSuffix sampleWorld.randDigits).length ≤ 5 ∧
    (∀ c ∈ (randSuffix sampleWorld.randDigits).toList, isUpperAlnum c = true) ∧
    (randSuffix sampleWorld.randDigits).length = 5 := by
  have h := order_number_shape sampleEnv sampleWorld emptyDb sampleOrderData
    (by decide) rfl rfl
  exact ⟨h.1, h.2.1, h.2.2.1, h.2.2.2.1, h.2.2.2.2 (by decide)⟩

/-- C4: a fully successful submission's 200 body has exactly the fields
`success`, `order_id`, `order_number`, `message`, `email_sent` (in that
order); and every 400 or 500 response the handler can ever produce carries
an `error` field in its body. -/
theorem response_shape (env : Env) (w : World) (db : Db) (d : OrderData)
    (hv : missingRequired d = false)
    (h1 : w.orderInsertError = false)
    (h2 : w.itemsInsertError = false) :
    bodyKeys (processStoreOrder env w (.post (some d)) db).response
      = ["success", "order_id", "order_number", "message", "email_sent"] ∧
    (∀ (env' : Env) (w' : World) (req' : StoreRequest) (db' : Db),
      ((processStoreOrder env' w' req' db').response.status = 400 ∨
       (processStoreOrder env' w' req' db').response.status = 500) →
      hasErrorField (processStoreOrder env' w' req' db').response = true) := by
  constructor
  · have hresp : (processStoreOrder env w (.post (some d)) db).response =
        successResponse w.orderId (orderNumberOf w.nowMs w.randDigits)
          (truthyStr env.mailersendApiKey && (w.emailOutcome == .ok)) := by
      simp [processStoreOrder, hv, h1, h2, mkOrderRow]
    rw [hresp]; rfl
  · intro env' w' req' db' hstat
    cases req' with
    | options => simp [processStoreOrder] at hstat
    | post parsed =>
      cases parsed with
      | none => rfl
      | some d' =>
        cases hm : missingRequired d' with
        | true => simp [processStoreOrder, hm, hasErrorField, bodyKeys, errorResponse]
        | false =>
          cases ho : w'.orderInsertError with
          | true => simp [processStoreOrder, hm, ho, hasErrorField, bodyKeys, errorResponse]
          | false =>
            cases hi : w'.itemsInsertError with
            | true => simp [processStoreOrder, hm, ho, hi, hasErrorField, bodyKeys, errorResponse]
            | false =>
              exfalso
              have h200 : (processStoreOrder env' w' (.post (some d')) db').response.status = 200 := by
                simp [processStoreOrder, hm, ho, hi, mkOrderRow, successResponse]
              rcases hstat with h | h <;> rw [h200] at h <;> exact absurd h (by decide)

/-- Witness for C4: the key list of a concrete 200 response, and the
`error` field of a concrete 400 response. -/
theorem response_shape_witness :
    bodyKeys (processStoreOrder sampleEnv sampleWorld (.post (some sampleOrderData)) emptyDb).response
      = ["success", "order_id", "order_number", "message", "email_sent"] ∧
    hasErrorField (processStoreOrder sampleEnv sampleWorld (.post (some invalidOrderData)) emptyDb).response = true := by
  have h := response_shape sampleEnv sampleWorld emptyDb sampleOrderData
    (by decide) rfl rfl
  exact ⟨h.1, h.2 sampleEnv sampleWorld (.post (some invalidOrderData)) emptyDb (Or.inl (by decide))⟩

/-- C5: on the path that reaches the email step (valid payload, both inserts
succeeded), the MailerSend call is issued exactly when the API key is
configured (truthy) in the environment; whatever the email outcome — ok,
non-ok, or a thrown exception — the request still succeeds with status 200;
and the body's `email_sent` is true exactly when the call was issued and the
provider responded ok. -/
theorem email_best_effort (env : Env) (w : World) (db : Db) (d : OrderData)
    (hv : missingRequired d = false)
    (h1 : w.orderInsertError = false)
    (h2 : w.itemsInsertError = false) :
    (processStoreOrder env w (.post (some d)) db).emailAttempted
      = truthyStr env.mailersendApiKey ∧
    (processStoreOrder env w (.post (some d)) db).response.status = 200 ∧
    bodyField (processStoreOrder env w (.post (some d)) db).response "email_sent"
      = some (JVal.jBool (truthyStr env.mailersendApiKey && (w.emailOutcome == .ok))) := by
  have hresp : (processStoreOrder env w (.post (some d)) db).response =
      successResponse w.orderId (orderNumberOf w.nowMs w.randDigits)
        (truthyStr env.mailersendApiKey && (w.emailOutcome == .ok)) := by
    simp [processStoreOrder, hv, h1, h2, mkOrderRow]
  refine ⟨?_, by rw [hresp]; rfl, by rw [hresp]; rfl⟩
  simp [processStoreOrder, hv, h1, h2]

/-- Witness for C5 at a concrete invocation (key configured, provider ok). -/
theorem email_best_effort_witness :
    (processStoreOrder sampleEnv sampleWorld (.post (some sampleOrderData)) emptyDb).emailAttempted
      = truthyStr sampleEnv.mailersendApiKey ∧
    (processStoreOrder sampleEnv sampleWorld (.post (some sampleOrderData)) emptyDb).response.status = 200 ∧
    bodyField (processStoreOrder sampleEnv sampleWorld (.post (some sampleOrderData)) emptyDb).response "email_sent"
      = some (JVal.jBool (truthyStr sampleEnv.mailersendApiKey && (sampleWorld.emailOutcome == .ok))) :=
  email_best_effort sampleEnv sampleWorld emptyDb sampleOrderData (by decide) rfl rfl

/-- Mapping a function that fixes every member of a list is the identity. -/
theorem map_pointwise_id {α : Type} (l : List α) (f : α → α)
    (h : ∀ a ∈ l, f a = a) : l.map f = l := by
  induction l with
  | nil => rfl
  | cons x xs ih =>
    rw [List.map_cons, h x (List.mem_cons_self x xs),
        ih fun a ha => h a (List.mem_cons_of_mem x ha)]

/-- One element under the two successive publish-toggle updates: first to
`!b`, then (reading the updated state) to `!(!b)`; an element whose
`is_published` was `b` comes back to itself. -/
theorem toggle_twice_elem (id : String) (b : Bool) (a : StoreAddon)
    (h : a.id = id → a.is_published = b) :
    (fun x : StoreAddon => if x.id == id then { x with is_published := !(!b) } else x)
      ((fun x : StoreAddon => if x.id == id then { x with is_published := !b } else x) a)
      = a := by
  by_cases hid : a.id = id
  · have hc : (a.id == id) = true := beq_iff_eq.mpr hid
    have hb : a.is_published = b := h hid
    simp only [hc, if_true, Bool.not_not]
    rw [← hb]
  · have hc : (a.id == id) = false := by
      rw [beq_eq_false_iff_ne]
      exact hid
    simp only [hc, Bool.false_eq_true, if_false]

/-- Two successive maps that pointwise cancel on a list's members leave the
list unchanged. -/
theorem map_map_pointwise_id {α : Type} (l : List α) (f g : α → α)
    (h : ∀ a ∈ l, g (f a) = a) : (l.map f).map g = l := by
  rw [List.map_map]
  exact map_pointwise_id l (g ∘ f) h

/-- C6: toggling an add-on's publish flag twice (both updates succeeding,
the second toggle reading the flag the first one wrote) restores both the
`store_addons` table and the local dashboard state exactly, provided every
row carrying the toggled id had the flag value the button read. -/
theorem toggle_publish_involution (dbAddons addons : List StoreAddon)
    (id : String) (b : Bool)
    (hdb : ∀ a ∈ dbAddons, a.id = id → a.is_published = b)
    (hloc : ∀ a ∈ addons, a.id = id → a.is_published = b) :
    handleTogglePublish (handleTogglePublish dbAddons addons id b false).1
      (handleTogglePublish dbAddons addons id b false).2 id (!b) false
      = (dbAddons, addons) := by
  have h1 : (handleTogglePublish (handleTogglePublish dbAddons addons id b false).1
      (handleTogglePublish dbAddons addons id b false).2 id (!b) false).1 = dbAddons :=
    map_map_pointwise_id dbAddons _ _ fun a ha => toggle_twice_elem id b a (hdb a ha)
  have h2 : (handleTogglePublish (handleTogglePublish dbAddons addons id b false).1
      (handleTogglePublish dbAddons addons id b false).2 id (!b) false).2 = addons :=
    map_map_pointwise_id addons _ _ fun a ha => toggle_twice_elem id b a (hloc a ha)
  exact Prod.ext h1 h2

/-- A concrete add-on for the dashboard witnesses. -/
def sampleAddon : StoreAddon where
  id := "addon-1"
  name := "QR Attendance"
  slug := "qr-attendance"
  description := "Scan based attendance tracking"
  short_description := "Scan based attendance"
  price := 2999
  original_price := none
  currency := "KES"
  features := ["QR scan", "Reports"]
  is_published := true
  is_featured := false
  is_popular := true
  download_count := 7
  rating := 4
  review_count := 2
  category := { name := "SaaS Add-ons", slug := "saas" }
  created_at := "2025-07-09"

/-- Witness for C6 at a concrete add-on list. -/
theorem toggle_publish_involution_witness :
    handleTogglePublish
      (handleTogglePublish [sampleAddon] [sampleAddon] "addon-1" true false).1
      (handleTogglePublish [sampleAddon] [sampleAddon] "addon-1" true false).2
      "addon-1" (!true) false
      = ([sampleAddon], [sampleAddon]) :=
  toggle_publish_involution [sampleAddon] [sampleAddon] "addon-1" true
    (by decide) (by decide)

/-- C7: for any of the four dropdown statuses, the status-update operation
writes the new status onto every row carrying the order's id — in the
`store_orders` table and in the local dashboard state — with no check
against the prior status, so no transition is ever rejected. -/
theorem status_update_unconstrained (dbOrders : List OrderRow)
    (orders : List DashOrder) (orderId status : String)
    (_hstatus : status ∈ dropdownStatusOptions) :
    (∀ r ∈ (handleUpdateOrderStatus dbOrders orders orderId status false).1,
        r.id = orderId → r.order_status = status) ∧
    (∀ o ∈ (handleUpdateOrderStatus dbOrders orders orderId status false).2,
        o.id = orderId → o.order_status = status) := by
  constructor
  · intro r hr hid
    have hr' : r ∈ dbOrders.map
        (fun r0 => if r0.id == orderId then { r0 with order_status := status } else r0) := hr
    obtain ⟨r0, _, rfl⟩ := List.mem_map.mp hr'
    by_cases h : r0.id = orderId
    · have hc : (r0.id == orderId) = true := beq_iff_eq.mpr h
      simp only [hc, if_true]
    · have hc : (r0.id == orderId) = false := by
        rw [beq_eq_false_iff_ne]
        exact h
      simp only [hc, Bool.false_eq_true, if_false] at hid ⊢
      exact absurd hid h
  · intro o ho hid
    have ho' : o ∈ orders.map
        (fun o0 => if o0.id == orderId then { o0 with order_status := status } else o0) := ho
    obtain ⟨o0, _, rfl⟩ := List.mem_map.mp ho'
    by_cases h : o0.id = orderId
    · have hc : (o0.id == orderId) = true := beq_iff_eq.mpr h
      simp only [hc, if_true]
    · have hc : (o0.id == orderId) = false := by
        rw [beq_eq_false_iff_ne]
        exact h
      simp only [hc, Bool.false_eq_true, if_false] at hid ⊢
      exact absurd hid h

/-- A concrete dashboard order for the C7 witness. -/
def sampleDashOrder : DashOrder where
  id := "uuid-1"
  order_number := "ORD-1234-ABCDE"
  customer_name := "Jane Doe"
  customer_email := "jane@example.com"
  institution_name := "Acme School"
  order_status := "pending"
  payment_status := "pending"
  total_amount := 5998
  currency := "KES"
  created_at := "2025-07-09"
  items := [{ addon_name := "QR Attendance", quantity := 1, unit_price := 2999, total_price := 2999 }]

/-- Witness for C7: a `pending → completed` write at a concrete order. -/
theorem status_update_unconstrained_witness :
    (∀ r ∈ (handleUpdateOrderStatus [] [sampleDashOrder] "uuid-1" "completed" false).1,
        r.id = "uuid-1" → r.order_status = "completed") ∧
    (∀ o ∈ (handleUpdateOrderStatus [] [sampleDashOrder] "uuid-1" "completed" false).2,
        o.id = "uuid-1" → o.order_status = "completed") :=
  status_update_unconstrained [] [sampleDashOrder] "uuid-1" "completed" (by decide)

/-- Folding `+ total_amount` from any accumulator sums the amounts. -/
theorem foldl_add_total (l : List DashOrder) (init : ℚ) :
    l.foldl (fun sum order => sum + order.total_amount) init
      = init + (l.map (·.total_amount)).sum := by
  induction l generalizing init with
  | nil => simp
  | cons x xs ih => simp [ih, add_assoc]

/-- C8: the dashboard statistics are the add-on count, the count of
published add-ons, the order count, the sum of `total_amount` over all
fetched orders (irrespective of order or payment status), and the count of
orders whose `order_status` is `pending`. -/
theorem stats_computation (addonsData : List StoreAddon) (ordersData : List DashOrder) :
    computeStats addonsData ordersData =
      { totalAddons := addonsData.length
        publishedAddons := addonsData.countP (·.is_published)
        totalOrders := ordersData.length
        totalRevenue := (ordersData.map (·.total_amount)).sum
        pendingOrders := ordersData.countP (fun order => order.order_status == "pending") } := by
  have h1 : (addonsData.filter (·.is_published)).length
      = addonsData.countP (·.is_published) := by
    rw [List.countP_eq_length_filter]
  have h2 : ordersData.foldl (fun sum order => sum + order.total_amount) 0
      = (ordersData.map (·.total_amount)).sum := by
    rw [foldl_add_total ordersData 0, zero_add]
  have h3 : (ordersData.filter (fun order => order.order_status == "pending")).length
      = ordersData.countP (fun order => order.order_status == "pending") := by
    rw [List.countP_eq_length_filter]
  unfold computeStats
  rw [h1, h2, h3]

/-- C9: any row present in `store_orders` after an invocation of the
handler that was not present before is a row the handler inserted, and it
carries `order_status = 'pending'` and `payment_status = 'pending'` —
whatever the request payload contained. -/
theorem inserted_orders_pending (env : Env) (w : World) (req : StoreRequest) (db : Db) :
    ∀ row ∈ (processStoreOrder env w req db).db.store_orders,
      row ∉ db.store_orders →
      row.order_status = "pending" ∧ row.payment_status = "pending" := by
  intro row hrow hnew
  cases req with
  | options => exact absurd hrow hnew
  | post parsed =>
    cases parsed with
    | none => exact absurd hrow hnew
    | some d =>
      cases hm : missingRequired d with
      | true =>
        have heq : (processStoreOrder env w (.post (some d)) db).db = db := by
          simp [processStoreOrder, hm]
        rw [heq] at hrow
        exact absurd hrow hnew
      | false =>
        cases ho : w.orderInsertError with
        | true =>
          have heq : (processStoreOrder env w (.post (some d)) db).db = db := by
            simp [processStoreOrder, hm, ho]
          rw [heq] at hrow
          exact absurd hrow hnew
        | false =>
          cases hi : w.itemsInsertError with
          | true =>
            have heq : (processStoreOrder env w (.post (some d)) db).db.store_orders
                = (db.store_orders ++ [mkOrderRow w (orderNumberOf w.nowMs w.randDigits) d]).filter
                    (fun r => r.id != (mkOrderRow w (orderNumberOf w.nowMs w.randDigits) d).id) := by
              simp [processStoreOrder, hm, ho, hi]
            rw [heq] at hrow
            have hmem := (List.mem_filter.mp hrow).1
            rcases List.mem_append.mp hmem with h | h
            · exact absurd h hnew
            · rw [List.mem_singleton.mp h]
              exact ⟨rfl, rfl⟩
          | false =>
            have heq : (processStoreOrder env w (.post (some d)) db).db.store_orders
                = db.store_orders ++ [mkOrderRow w (orderNumberOf w.nowMs w.randDigits) d] := by
              simp [processStoreOrder, hm, ho, hi]
            rw [heq] at hrow
            rcases List.mem_append.mp hrow with h | h
            · exact absurd h hnew
            · rw [List.mem_singleton.mp h]
              exact ⟨rfl, rfl⟩

/-- Witness for C9: the row the sample invocation inserts is pending. -/
theorem inserted_orders_pending_witness :
    (mkOrderRow sampleWorld (orderNumberOf sampleWorld.nowMs sampleWorld.randDigits)
        sampleOrderData).order_status = "pending" ∧
    (mkOrderRow sampleWorld (orderNumberOf sampleWorld.nowMs sampleWorld.randDigits)
        sampleOrderData).payment_status = "pending" :=
  inserted_orders_pending sampleEnv sampleWorld (.post (some sampleOrderData)) emptyDb
    (mkOrderRow sampleWorld (orderNumberOf sampleWorld.nowMs sampleWorld.randDigits)
      sampleOrderData)
    (by decide) (by decide)

/-- C10: each dashboard mutation leaves the local state untouched when the
database call reports an error, and applies exactly the corresponding local
update when it does not. -/
theorem mutations_respect_db_outcome (dbAddons addons : List StoreAddon)
    (dbOrders : List OrderRow) (orders : List DashOrder)
    (id orderId status : String) (currentStatus : Bool) :
    (handleDeleteAddon dbAddons addons id true true).2 = addons ∧
    (handleTogglePublish dbAddons addons id currentStatus true).2 = addons ∧
    (handleUpdateOrderStatus dbOrders orders orderId status true).2 = orders ∧
    (handleDeleteAddon dbAddons addons id true false).2
      = addons.filter (fun addon => addon.id != id) ∧
    (handleTogglePublish dbAddons addons id currentStatus false).2
      = addons.map (fun addon =>
          if addon.id == id then { addon with is_published := !currentStatus } else addon) ∧
    (handleUpdateOrderStatus dbOrders orders orderId status false).2
      = orders.map (fun order =>
          if order.id == orderId then { order with order_status := status } else order) :=
  ⟨rfl, rfl, rfl, rfl, rfl, rfl⟩

end StoreVerify
